import Mathlib

/-!
Formal model of the scrum tool server in `src/scrum.py`.

Each tool handler registered by the `JiraScrum` class is embedded as a pure
Lean function.  The Jira client is modelled as a `Backend` record of methods,
each returning `Except String r`: `Except.error m` models the method raising a
Python exception whose `str` is `m`.  A handler returns a `ToolResult`:
`ToolResult.ok v` models the success-shaped dictionary and
`ToolResult.error m` models the `{"error": m}` dictionary produced by the
handler's `except` block.  Python floats are modelled as rationals, and the
Python truthiness tests appearing in the source (`if assignee:`,
`if not transition_id:`) are embedded explicitly.
-/

namespace Scrum

/-- Value of a story-points slot as it may occur on a fetched issue record:
Python `None` or a number.  `getattr(issue.fields, "customfield_10002", d)`
yields the stored value when the attribute is present (possibly `None`) and
the default `d` otherwise; the attribute itself is modelled as
`Option PyNum`, `none` meaning the attribute is absent. -/
inductive PyNum where
  | null : PyNum
  | num : ℚ → PyNum
deriving DecidableEq

/-- Python `x or 0` applied to a story-points value: `None` and `0` both
collapse to `0`, any other number is returned unchanged. -/
def pyOr0 : PyNum → ℚ
  | .null => 0
  | .num q => q

/-- A comment on an issue (`comment.author.displayName`, `comment.body`,
`comment.created` in the source). -/
structure Comment where
  author : String
  body : String
  created : String
deriving DecidableEq

/-- One field-level delta of a changelog entry (`item.field`,
`item.fromString`, `item.toString`). -/
structure ChangeItem where
  field : String
  fromString : Option String
  toString : Option String
deriving DecidableEq

/-- One changelog entry (`history.author.displayName`, `history.created`,
`history.items`). -/
structure ChangeHistory where
  author : String
  created : String
  items : List ChangeItem
deriving DecidableEq

/-- The changelog attached to an issue fetched with history expansion. -/
structure Changelog where
  histories : List ChangeHistory
deriving DecidableEq

/-- The `fields` object of a fetched Jira issue, restricted to the attributes
the handlers read.  `assignee` is the assignee's `displayName`, `none` when
the issue is unassigned (Python `None`, on which
`getattr(., "displayName", "Unassigned")` yields the default).  `status`,
`priority` and `issuetype` stand for the corresponding `.name` attributes. -/
structure IssueFields where
  summary : String
  description : Option String
  status : String
  assignee : Option String
  reporter : String
  created : String
  updated : String
  priority : String
  issuetype : String
  customfield_10002 : Option PyNum
  customfield_10001 : Option String
  components : List String
  labels : List String
  comments : List Comment
deriving DecidableEq

/-- A fetched Jira issue. -/
structure Issue where
  key : String
  fields : IssueFields
deriving DecidableEq

/-- A sprint object as returned by `jira.sprints` / `jira.sprint`.  The
source reads `id`, `name` and `state` directly and reads `startDate`,
`endDate` and `goal` through `getattr` with a default, so the latter three
are optional here. -/
structure SprintObj where
  id : Int
  name : String
  state : String
  startDate : Option String
  endDate : Option String
  goal : Option String
deriving DecidableEq

/-- The sprint object returned by `jira.create_sprint`.  The source reads
`id` and `name` directly and everything else through `getattr` with a
caller-derived default, so `state`, the dates and the goal are optional. -/
structure CreatedSprint where
  id : Int
  name : String
  state : Option String
  startDate : Option String
  endDate : Option String
  goal : Option String
deriving DecidableEq

/-- An available workflow transition as returned by `jira.transitions`:
a dictionary with the backend-assigned `id` and the display `name`. -/
structure Transition where
  id : String
  name : String
deriving DecidableEq

/-- The issue object returned by `jira.create_issue` (the handler reads
`key` and `self`). -/
structure CreatedIssue where
  key : String
  self : String
deriving DecidableEq

/-- The `fields` dictionary assembled by the `create_issue` handler.  The
four required entries are always present; each optional entry is `none`
exactly when the corresponding key is absent from the Python dictionary. -/
structure IssueFieldsPayload where
  project : String
  issuetype : String
  summary : String
  description : String
  assignee : Option String
  priority : Option String
  labels : Option (List String)
  customfield_10002 : Option ℚ
deriving DecidableEq

/-- The keyword arguments passed to `jira.create_sprint`. -/
structure CreateSprintPayload where
  name : String
  board_id : Int
  startDate : String
  endDate : String
  goal : String
deriving DecidableEq

/-- The Jira client session (`self.jira`), modelled as a record of methods.
`Except.error m` models a call raising an exception whose `str` is `m`.
`search_issues` takes the JQL string and the optional `maxResults` argument
(`none` when the source calls it without `maxResults`). -/
structure Backend where
  sprints : Int → String → Except String (List SprintObj)
  search_issues : String → Option Nat → Except String (List Issue)
  issue : String → Except String Issue
  issue_changelog : String → Except String Changelog
  create_issue : IssueFieldsPayload → Except String CreatedIssue
  transitions : String → Except String (List Transition)
  transition_issue : String → String → Except String Unit
  assign_issue : String → String → Except String Unit
  add_issues_to_sprint : Int → List String → Except String Unit
  create_sprint : CreateSprintPayload → Except String CreatedSprint
  sprint : Int → Except String SprintObj
  sprint_report : Int → Int → Except String String

/-- The value a handler hands back to the tool framework: either the
success-shaped record or the `{"error": m}` record built in the `except`
block. -/
inductive ToolResult (α : Type) where
  | ok : α → ToolResult α
  | error : String → ToolResult α
deriving DecidableEq

/-- The fixed list of status names treated as completed:
`["Done", "Closed", "Completed"]` in the source. -/
def closedStatuses : List String := ["Done", "Closed", "Completed"]

/-- Per-issue summary record built by `get_sprint_details`.  `story_points`
holds the raw `getattr(issue.fields, "customfield_10002", 0)` value, which
may still be Python `None` when the attribute is present but null. -/
structure IssueSummary where
  key : String
  summary : String
  status : String
  assignee : String
  story_points : PyNum
deriving DecidableEq

/-- The per-sprint `metrics` dictionary of `get_sprint_details`. -/
structure SprintMetrics where
  total_issues : Nat
  total_story_points : ℚ
  completed_story_points : ℚ
  completion_percentage : ℚ
deriving DecidableEq

/-- One entry of the `sprints` list returned by `get_sprint_details`. -/
structure SprintInfo where
  id : Int
  name : String
  state : String
  start_date : Option String
  end_date : Option String
  goal : String
  issues : List IssueSummary
  metrics : SprintMetrics
deriving DecidableEq

/-- The issue-to-summary mapping in `get_sprint_details`:
`getattr(issue.fields.assignee, "displayName", "Unassigned")` and
`getattr(issue.fields, "customfield_10002", 0)`. -/
def sprintIssueSummary (i : Issue) : IssueSummary :=
  { key := i.key
    summary := i.fields.summary
    status := i.fields.status
    assignee := i.fields.assignee.getD "Unassigned"
    story_points := (i.fields.customfield_10002).getD (PyNum.num 0) }

/-- Effective story points of a summary record:
`issue.get("story_points", 0) or 0` in the source (the key is always
present, so this is `or 0` on the stored value). -/
def summaryPoints (s : IssueSummary) : ℚ := pyOr0 s.story_points

/-- Membership test `issue["status"] in ["Done", "Closed", "Completed"]`. -/
def summaryCompleted (s : IssueSummary) : Bool := decide (s.status ∈ closedStatuses)

/-- The metric computation of `get_sprint_details` (lines 90-99 of the
source), over the list of per-issue summary records (the Python local
variables are inlined). -/
def sprintMetrics (issues : List IssueSummary) : SprintMetrics :=
  { total_issues := issues.length
    total_story_points := (issues.map summaryPoints).sum
    completed_story_points := ((issues.filter summaryCompleted).map summaryPoints).sum
    completion_percentage :=
      if (issues.map summaryPoints).sum > 0 then
        ((issues.filter summaryCompleted).map summaryPoints).sum /
          (issues.map summaryPoints).sum * 100
      else 0 }

/-- The JQL string `f"sprint = {sprint.id} ORDER BY status"`. -/
def sprintJql (sprint_id : Int) : String :=
  "sprint = " ++ toString sprint_id ++ " ORDER BY status"

/-- One `sprint_info` dictionary of `get_sprint_details`, built from the
sprint object and the issues returned by the per-sprint search. -/
def buildSprintInfo (s : SprintObj) (issues : List Issue) : SprintInfo :=
  let summaries := issues.map sprintIssueSummary
  { id := s.id
    name := s.name
    state := s.state
    start_date := s.startDate
    end_date := s.endDate
    goal := s.goal.getD ""
    issues := summaries
    metrics := sprintMetrics summaries }

/-- The body of the `for sprint in sprints` loop of `get_sprint_details`:
each sprint triggers one `search_issues` call, and the first raising call
aborts the whole loop (the surrounding `try` catches it). -/
def processSprints (b : Backend) : List SprintObj → Except String (List SprintInfo)
  | [] => .ok []
  | s :: rest =>
    match b.search_issues (sprintJql s.id) none with
    | .error e => .error e
    | .ok issues =>
      match processSprints b rest with
      | .error e => .error e
      | .ok infos => .ok (buildSprintInfo s issues :: infos)

/-- Handler `get_sprint_details(board_id, sprint_state="active")`. -/
def get_sprint_details (b : Backend) (board_id : Int) (sprint_state : String) :
    ToolResult (List SprintInfo) :=
  match b.sprints board_id sprint_state with
  | .error e => .error e
  | .ok ss =>
    match processSprints b ss with
    | .error e => .error e
    | .ok infos => .ok infos

/-- Handler `get_sprint_details` with its Python default argument
`sprint_state="active"`. -/
def get_sprint_details_default (b : Backend) (board_id : Int) :
    ToolResult (List SprintInfo) :=
  get_sprint_details b board_id "active"

/-- One item of the `history` list returned by `get_issue_details`. -/
structure HistoryItemOut where
  field : String
  from_value : Option String
  to_value : Option String
deriving DecidableEq

/-- One entry of the `history` list returned by `get_issue_details`. -/
structure HistoryOut where
  author : String
  created : String
  items : List HistoryItemOut
deriving DecidableEq

/-- The `issue_details` dictionary returned by `get_issue_details`. -/
structure IssueDetails where
  key : String
  summary : String
  description : Option String
  status : String
  assignee : String
  reporter : String
  created : String
  updated : String
  priority : String
  issue_type : String
  story_points : PyNum
  sprint : Option String
  components : List String
  labels : List String
  comments : List Comment
  history : List HistoryOut
deriving DecidableEq

/-- The record-shaping of `get_issue_details` (lines 127-171 of the source),
given the fetched issue and its changelog.  `story_points` uses
`getattr(..., None)`, modelled by defaulting an absent attribute to
`PyNum.null`. -/
def buildIssueDetails (i : Issue) (cl : Changelog) : IssueDetails :=
  { key := i.key
    summary := i.fields.summary
    description := i.fields.description
    status := i.fields.status
    assignee := i.fields.assignee.getD "Unassigned"
    reporter := i.fields.reporter
    created := i.fields.created
    updated := i.fields.updated
    priority := i.fields.priority
    issue_type := i.fields.issuetype
    story_points := (i.fields.customfield_10002).getD PyNum.null
    sprint := i.fields.customfield_10001
    components := i.fields.components
    labels := i.fields.labels
    comments := i.fields.comments
    history := cl.histories.map (fun h =>
      { author := h.author
        created := h.created
        items := h.items.map (fun it =>
          { field := it.field
            from_value := it.fromString
            to_value := it.toString }) }) }

/-- Handler `get_issue_details(issue_key)`: fetches the issue, then fetches
it again with changelog expansion; either fetch raising yields the error
record. -/
def get_issue_details (b : Backend) (issue_key : String) : ToolResult IssueDetails :=
  match b.issue issue_key with
  | .error e => .error e
  | .ok i =>
    match b.issue_changelog issue_key with
    | .error e => .error e
    | .ok cl => .ok (buildIssueDetails i cl)

/-- Python truthiness filter for an optional string argument
(`if assignee:`): a present but empty string is falsy and is dropped. -/
def optIfTruthyStr : Option String → Option String
  | some s => if s = "" then none else some s
  | none => none

/-- Python truthiness filter for an optional list argument (`if labels:`):
a present but empty list is falsy and is dropped. -/
def optIfTruthyList : Option (List String) → Option (List String)
  | some l => if l = [] then none else some l
  | none => none

/-- Python truthiness filter for an optional numeric argument
(`if story_points:`): a present but zero value is falsy and is dropped. -/
def optIfTruthyNum : Option ℚ → Option ℚ
  | some q => if q = 0 then none else some q
  | none => none

/-- The `issue_dict` assembled by `create_issue` (lines 210-227 of the
source): four unconditional entries, four conditional ones. -/
def create_issue_fields (project_key issue_type summary description : String)
    (assignee priority : Option String) (labels : Option (List String))
    (story_points : Option ℚ) : IssueFieldsPayload :=
  { project := project_key
    issuetype := issue_type
    summary := summary
    description := description
    assignee := optIfTruthyStr assignee
    priority := optIfTruthyStr priority
    labels := optIfTruthyList labels
    customfield_10002 := optIfTruthyNum story_points }

/-- The success record returned by `create_issue`. -/
structure CreateIssueOut where
  key : String
  self : String
  summary : String
  message : String
deriving DecidableEq

/-- Handler `create_issue(project_key, issue_type, summary, description,
assignee=None, priority=None, labels=None, story_points=None)`. -/
def create_issue (b : Backend) (project_key issue_type summary description : String)
    (assignee priority : Option String) (labels : Option (List String))
    (story_points : Option ℚ) : ToolResult CreateIssueOut :=
  match b.create_issue (create_issue_fields project_key issue_type summary description
      assignee priority labels story_points) with
  | .error e => .error e
  | .ok ni =>
    .ok { key := ni.key
          self := ni.self
          summary := summary
          message := "Successfully created issue " ++ ni.key }

/-- Python `str.lower()`: the string lowered character by character.  (This
is `String.toLower`, but mapped over the character list directly, since
`String.mapAux` is defined by well-founded recursion and does not reduce in
the kernel.) -/
def pyLower (s : String) : String := ⟨s.data.map Char.toLower⟩

/-- The loop of `update_issue_status` that sets `transition_id`: the first
transition whose lowercased name equals the lowercased target, `none` when
the loop finishes without a match. -/
def findTransitionId : List Transition → String → Option String
  | [], _ => none
  | t :: rest, target =>
    if pyLower t.name = pyLower target then some t.id else findTransitionId rest target

/-- The ASCII single-quote character as a string. -/
def sq : String := String.singleton (Char.ofNat 39)

/-- The negative-result message of `update_issue_status`:
`f"Cannot transition to '{transition_to}'. Available transitions:
{', '.join(available_transitions)}"`. -/
def cannotTransitionMsg (transition_to : String) (ts : List Transition) : String :=
  "Cannot transition to " ++ sq ++ transition_to ++ sq ++
    ". Available transitions: " ++ String.intercalate ", " (ts.map (fun t => t.name))

/-- The two success-shaped records `update_issue_status` can return: the
`success: False` negative result and the `success: True` outcome. -/
inductive TransitionOutcome where
  | failure : String → TransitionOutcome
  | success : String → String → String → TransitionOutcome
deriving DecidableEq

/-- Handler `update_issue_status(issue_key, transition_to)`.  The Python
guard is `if not transition_id:`, which fires both when no transition
matched (`transition_id is None`) and when the matching transition's id is
the empty string (an empty string is falsy in Python). -/
def update_issue_status (b : Backend) (issue_key transition_to : String) :
    ToolResult TransitionOutcome :=
  match b.transitions issue_key with
  | .error e => .error e
  | .ok ts =>
    match findTransitionId ts transition_to with
    | none => .ok (.failure (cannotTransitionMsg transition_to ts))
    | some tid =>
      if tid = "" then .ok (.failure (cannotTransitionMsg transition_to ts))
      else
        match b.transition_issue issue_key tid with
        | .error e => .error e
        | .ok _ =>
          .ok (.success issue_key transition_to
            ("Successfully updated " ++ issue_key ++ " status to " ++ transition_to))

/-- The success record returned by `assign_issue`. -/
structure AssignOut where
  success : Bool
  key : String
  assignee : String
  message : String
deriving DecidableEq

/-- Handler `assign_issue(issue_key, assignee)`. -/
def assign_issue (b : Backend) (issue_key assignee : String) : ToolResult AssignOut :=
  match b.assign_issue issue_key assignee with
  | .error e => .error e
  | .ok _ =>
    .ok { success := true
          key := issue_key
          assignee := assignee
          message := "Successfully assigned " ++ issue_key ++ " to " ++ assignee }

/-- The success record returned by `add_issue_to_sprint`. -/
structure AddToSprintOut where
  success : Bool
  key : String
  sprint_id : Int
  message : String
deriving DecidableEq

/-- Handler `add_issue_to_sprint(issue_key, sprint_id)`: a single backend
call with a one-element issue-key list. -/
def add_issue_to_sprint (b : Backend) (issue_key : String) (sprint_id : Int) :
    ToolResult AddToSprintOut :=
  match b.add_issues_to_sprint sprint_id [issue_key] with
  | .error e => .error e
  | .ok _ =>
    .ok { success := true
          key := issue_key
          sprint_id := sprint_id
          message := "Successfully added " ++ issue_key ++ " to sprint " ++ toString sprint_id }

/-- One backlog item returned by `get_project_backlog`. -/
structure BacklogItem where
  key : String
  summary : String
  issue_type : String
  priority : String
  status : String
  assignee : String
  story_points : PyNum
deriving DecidableEq

/-- The success record returned by `get_project_backlog`. -/
structure BacklogOut where
  project : String
  backlog_count : Nat
  backlog_items : List BacklogItem
deriving DecidableEq

/-- The JQL string
`f"project = {project_key} AND sprint is EMPTY ORDER BY Rank ASC"`. -/
def backlogJql (project_key : String) : String :=
  "project = " ++ project_key ++ " AND sprint is EMPTY ORDER BY Rank ASC"

/-- The issue-to-item mapping of `get_project_backlog` (lines 367-378). -/
def backlogItem (i : Issue) : BacklogItem :=
  { key := i.key
    summary := i.fields.summary
    issue_type := i.fields.issuetype
    priority := i.fields.priority
    status := i.fields.status
    assignee := i.fields.assignee.getD "Unassigned"
    story_points := (i.fields.customfield_10002).getD (PyNum.num 0) }

/-- Handler `get_project_backlog(project_key, max_results=50)`. -/
def get_project_backlog (b : Backend) (project_key : String) (max_results : Nat) :
    ToolResult BacklogOut :=
  match b.search_issues (backlogJql project_key) (some max_results) with
  | .error e => .error e
  | .ok issues =>
    let items := issues.map backlogItem
    .ok { project := project_key
          backlog_count := items.length
          backlog_items := items }

/-- Handler `get_project_backlog` with its Python default argument
`max_results=50`. -/
def get_project_backlog_default (b : Backend) (project_key : String) :
    ToolResult BacklogOut :=
  get_project_backlog b project_key 50

/-- The keyword arguments `create_sprint` passes to `jira.create_sprint`
(lines 409-415): the caller's dates suffixed with the fixed start-of-day and
end-of-day markers. -/
def create_sprint_payload (board_id : Int) (name start_date end_date goal : String) :
    CreateSprintPayload :=
  { name := name
    board_id := board_id
    startDate := start_date ++ "T00:00:00.000Z"
    endDate := end_date ++ "T23:59:59.000Z"
    goal := goal }

/-- The success record returned by `create_sprint`. -/
structure CreateSprintOut where
  id : Int
  name : String
  state : String
  start_date : String
  end_date : String
  goal : String
  message : String
deriving DecidableEq

/-- Handler `create_sprint(board_id, name, start_date, end_date, goal="")`:
the returned record takes `getattr` defaults from the caller's arguments
when the backend does not echo a field back. -/
def create_sprint (b : Backend) (board_id : Int)
    (name start_date end_date goal : String) : ToolResult CreateSprintOut :=
  match b.create_sprint (create_sprint_payload board_id name start_date end_date goal) with
  | .error e => .error e
  | .ok ns =>
    .ok { id := ns.id
          name := ns.name
          state := ns.state.getD "future"
          start_date := ns.startDate.getD start_date
          end_date := ns.endDate.getD end_date
          goal := ns.goal.getD goal
          message := "Successfully created sprint: " ++ name }

/-- Per-issue-type running totals in the sprint report. -/
structure TypeCounts where
  total : Nat
  completed : Nat
deriving DecidableEq

/-- Membership test `issue.fields.status.name in ["Done", "Closed",
"Completed"]` on a fetched issue. -/
def isCompletedIssue (i : Issue) : Bool := decide (i.fields.status ∈ closedStatuses)

/-- Effective story points of a fetched issue:
`getattr(issue.fields, "customfield_10002", 0) or 0`. -/
def issuePoints (i : Issue) : ℚ := pyOr0 ((i.fields.customfield_10002).getD (PyNum.num 0))

/-- One step of the `issue_types` grouping loop of `generate_sprint_report`
(lines 467-475): a Python dict in insertion order, the type's entry created
on first sight, `total` always bumped and `completed` bumped when the status
is in the closed set. -/
def bumpType (m : List (String × TypeCounts)) (ty : String) (c : Bool) :
    List (String × TypeCounts) :=
  match m with
  | [] => [(ty, { total := 1, completed := if c then 1 else 0 })]
  | (k, v) :: rest =>
    if k = ty then
      (k, { total := v.total + 1, completed := v.completed + (if c then 1 else 0) }) :: rest
    else
      (k, v) :: bumpType rest ty c

/-- The whole `issue_types` grouping loop: one left-to-right scan of the
issue list. -/
def buildIssueTypes (issues : List Issue) : List (String × TypeCounts) :=
  issues.foldl (fun m i => bumpType m i.fields.issuetype (isCompletedIssue i)) []

/-- The `metrics` dictionary of `generate_sprint_report` (lines 457-491). -/
structure ReportMetrics where
  total_issues : Nat
  completed_issues : Nat
  completion_percentage : ℚ
  total_story_points : ℚ
  completed_story_points : ℚ
  story_point_completion : ℚ
  issue_types : List (String × TypeCounts)
deriving DecidableEq

/-- The metric computation of `generate_sprint_report` over the fetched
issue list (the Python local variables are inlined). -/
def reportMetrics (issues : List Issue) : ReportMetrics :=
  { total_issues := issues.length
    completed_issues := issues.countP isCompletedIssue
    completion_percentage :=
      if issues.length > 0 then
        (issues.countP isCompletedIssue : ℚ) / (issues.length : ℚ) * 100
      else 0
    total_story_points := (issues.map issuePoints).sum
    completed_story_points := ((issues.filter isCompletedIssue).map issuePoints).sum
    story_point_completion :=
      if (issues.map issuePoints).sum > 0 then
        ((issues.filter isCompletedIssue).map issuePoints).sum / (issues.map issuePoints).sum * 100
      else 0
    issue_types := buildIssueTypes issues }

/-- The success record returned by `generate_sprint_report`. -/
structure SprintReportOut where
  sprint_name : String
  sprint_goal : String
  start_date : String
  end_date : String
  state : String
  metrics : ReportMetrics
deriving DecidableEq

/-- The JQL string `f"sprint = {sprint_id}"`. -/
def reportJql (sprint_id : Int) : String := "sprint = " ++ toString sprint_id

/-- Handler `generate_sprint_report(board_id, sprint_id)`: fetches the
sprint, fetches the backend-native sprint report (whose value is bound but
never used in the returned record), searches the sprint's issues with
`maxResults=200`, and shapes the metrics. -/
def generate_sprint_report (b : Backend) (board_id sprint_id : Int) :
    ToolResult SprintReportOut :=
  match b.sprint sprint_id with
  | .error e => .error e
  | .ok sp =>
    match b.sprint_report board_id sprint_id with
    | .error e => .error e
    | .ok _ =>
      match b.search_issues (reportJql sprint_id) (some 200) with
      | .error e => .error e
      | .ok issues =>
        .ok { sprint_name := sp.name
              sprint_goal := sp.goal.getD ""
              start_date := sp.startDate.getD ""
              end_date := sp.endDate.getD ""
              state := sp.state
              metrics := reportMetrics issues }

/-- Total count recorded under a type name in the grouping map, `0` when the
type has no entry. -/
def typesTotal : List (String × TypeCounts) → String → Nat
  | [], _ => 0
  | (k, v) :: rest, ty => if k = ty then v.total else typesTotal rest ty

/-- Completed count recorded under a type name in the grouping map, `0` when
the type has no entry. -/
def typesCompleted : List (String × TypeCounts) → String → Nat
  | [], _ => 0
  | (k, v) :: rest, ty => if k = ty then v.completed else typesCompleted rest ty

/-- Sum of the `total` counters over all entries of the grouping map. -/
def sumTotals : List (String × TypeCounts) → Nat
  | [] => 0
  | (_, v) :: rest => v.total + sumTotals rest

/-- Sum of the `completed` counters over all entries of the grouping map. -/
def sumCompleted : List (String × TypeCounts) → Nat
  | [] => 0
  | (_, v) :: rest => v.completed + sumCompleted rest

/-- A sprint object used in concrete evaluations. -/
def okSprint : SprintObj :=
  { id := 7
    name := "Sprint 7"
    state := "active"
    startDate := none
    endDate := none
    goal := none }

/-- An unassigned completed issue used in concrete evaluations. -/
def wIssue : Issue :=
  { key := "PROJ-1"
    fields :=
      { summary := "Fix login"
        description := some "desc"
        status := "Done"
        assignee := none
        reporter := "Rita"
        created := "2024-01-01T00:00:00.000+0000"
        updated := "2024-01-02T00:00:00.000+0000"
        priority := "High"
        issuetype := "Task"
        customfield_10002 := some (PyNum.num 5)
        customfield_10001 := none
        components := []
        labels := []
        comments := [] } }

/-- The transition list of the spec scenario: To Do, In Progress, Done. -/
def threeTransitions : List Transition :=
  [{ id := "11", name := "To Do" }, { id := "21", name := "In Progress" },
   { id := "31", name := "Done" }]

/-- A backend every call of which succeeds, used in concrete evaluations. -/
def okB : Backend :=
  { sprints := fun _ _ => .ok [okSprint]
    search_issues := fun _ _ => .ok [wIssue]
    issue := fun _ => .ok wIssue
    issue_changelog := fun _ => .ok { histories := [] }
    create_issue := fun _ => .ok { key := "PROJ-9", self := "https://example/PROJ-9" }
    transitions := fun _ => .ok threeTransitions
    transition_issue := fun _ _ => .ok ()
    assign_issue := fun _ _ => .ok ()
    add_issues_to_sprint := fun _ _ => .ok ()
    create_sprint := fun _ =>
      .ok { id := 99, name := "S", state := none, startDate := none, endDate := none,
            goal := none }
    sprint := fun _ => .ok okSprint
    sprint_report := fun _ _ => .ok "raw" }

/-- A second sprint object, used to exercise a failure during a later
iteration of the sprint loop. -/
def okSprint2 : SprintObj :=
  { id := 8
    name := "Sprint 8"
    state := "active"
    startDate := none
    endDate := none
    goal := none }

/-- A backend listing two sprints whose issue search succeeds for the first
sprint's query and raises for the second sprint's query. -/
def twoSprintB : Backend :=
  { okB with
    sprints := fun _ _ => .ok [okSprint, okSprint2]
    search_issues := fun jql _ =>
      if jql = sprintJql okSprint2.id then .error "second search fail" else .ok [wIssue] }

/-- A backend every call of which raises an exception with message `m`. -/
def failB (m : String) : Backend :=
  { sprints := fun _ _ => .error m
    search_issues := fun _ _ => .error m
    issue := fun _ => .error m
    issue_changelog := fun _ => .error m
    create_issue := fun _ => .error m
    transitions := fun _ => .error m
    transition_issue := fun _ _ => .error m
    assign_issue := fun _ _ => .error m
    add_issues_to_sprint := fun _ _ => .error m
    create_sprint := fun _ => .error m
    sprint := fun _ => .error m
    sprint_report := fun _ _ => .error m }

/-- A backend whose first fetch succeeds in every multi-call handler and
whose second call raises. -/
def midB : Backend :=
  { okB with
    search_issues := fun _ _ => .error "net down"
    issue_changelog := fun _ => .error "net down"
    transition_issue := fun _ _ => .error "net down"
    sprint_report := fun _ _ => .error "net down" }

/-- A backend for `generate_sprint_report` whose sprint and report fetches
succeed and whose issue search raises. -/
def lateB : Backend :=
  { okB with search_issues := fun _ _ => .error "late fail" }

/-- A fully succeeding backend carrying a given backend-native sprint-report
payload. -/
def repB (payload : String) : Backend :=
  { okB with sprint_report := fun _ _ => .ok payload }

/-- A backend with a single matching transition whose backend-assigned id is
the empty string, and whose transition execution would succeed. -/
def emptyIdB : Backend :=
  { okB with transitions := fun _ => .ok [{ id := "", name := "Done" }] }

/-- A completed five-point summary record (the spec scenario's Done issue). -/
def wsDone : IssueSummary :=
  { key := "PROJ-1", summary := "a", status := "Done", assignee := "Alice",
    story_points := PyNum.num 5 }

/-- An in-progress three-point summary record (the spec scenario's second
issue). -/
def wsProg : IssueSummary :=
  { key := "PROJ-2", summary := "b", status := "In Progress", assignee := "Bob",
    story_points := PyNum.num 3 }

/-- A completed summary record carrying negative story points. -/
def negSummary : IssueSummary :=
  { key := "PROJ-3", summary := "n", status := "Done", assignee := "Alice",
    story_points := PyNum.num (-5) }

/-- Bumping a type in the grouping map raises exactly that type's recorded
total by one. -/
theorem typesTotal_bumpType (m : List (String × TypeCounts)) (ty : String) (c : Bool)
    (ty' : String) :
    typesTotal (bumpType m ty c) ty' = typesTotal m ty' + (if ty = ty' then 1 else 0) := by
  induction m with
  | nil =>
    by_cases h : ty = ty' <;> simp [bumpType, typesTotal, h]
  | cons kv rest ih =>
    obtain ⟨k, v⟩ := kv
    by_cases hk : k = ty
    · subst hk
      by_cases h : k = ty' <;> simp [bumpType, typesTotal, h]
    · by_cases h : k = ty'
      · subst h
        have hne : ty ≠ k := fun hh => hk hh.symm
        simp [bumpType, typesTotal, hk, hne]
      · simp [bumpType, typesTotal, hk, h, ih]

/-- Bumping a type in the grouping map raises exactly that type's recorded
completed count, and only when the bumped issue is completed. -/
theorem typesCompleted_bumpType (m : List (String × TypeCounts)) (ty : String) (c : Bool)
    (ty' : String) :
    typesCompleted (bumpType m ty c) ty' =
      typesCompleted m ty' + (if ty = ty' then (if c then 1 else 0) else 0) := by
  induction m with
  | nil =>
    by_cases h : ty = ty' <;> simp [bumpType, typesCompleted, h]
  | cons kv rest ih =>
    obtain ⟨k, v⟩ := kv
    by_cases hk : k = ty
    · subst hk
      by_cases h : k = ty' <;> simp [bumpType, typesCompleted, h]
    · by_cases h : k = ty'
      · subst h
        have hne : ty ≠ k := fun hh => hk hh.symm
        simp [bumpType, typesCompleted, hk, hne]
      · simp [bumpType, typesCompleted, hk, h, ih]

/-- Running the grouping loop from any accumulator adds, to each type's
recorded total, the number of scanned issues of that type. -/
theorem typesTotal_foldl (issues : List Issue) (m : List (String × TypeCounts)) (ty : String) :
    typesTotal
        (issues.foldl (fun acc i => bumpType acc i.fields.issuetype (isCompletedIssue i)) m) ty =
      typesTotal m ty + issues.countP (fun i => decide (i.fields.issuetype = ty)) := by
  induction issues generalizing m with
  | nil => simp
  | cons i rest ih =>
    rw [List.foldl_cons, ih, typesTotal_bumpType, List.countP_cons]
    by_cases h : i.fields.issuetype = ty <;> simp [h] <;> omega

/-- Running the grouping loop from any accumulator adds, to each type's
recorded completed count, the number of scanned completed issues of that
type. -/
theorem typesCompleted_foldl (issues : List Issue) (m : List (String × TypeCounts))
    (ty : String) :
    typesCompleted
        (issues.foldl (fun acc i => bumpType acc i.fields.issuetype (isCompletedIssue i)) m) ty =
      typesCompleted m ty +
        issues.countP (fun i => decide (i.fields.issuetype = ty) && isCompletedIssue i) := by
  induction issues generalizing m with
  | nil => simp
  | cons i rest ih =>
    rw [List.foldl_cons, ih, typesCompleted_bumpType, List.countP_cons]
    by_cases h : i.fields.issuetype = ty <;> by_cases hc : isCompletedIssue i <;>
      simp [h, hc] <;> omega

/-- Bumping a type raises the map-wide sum of totals by exactly one. -/
theorem sumTotals_bumpType (m : List (String × TypeCounts)) (ty : String) (c : Bool) :
    sumTotals (bumpType m ty c) = sumTotals m + 1 := by
  induction m with
  | nil => simp [bumpType, sumTotals]
  | cons kv rest ih =>
    obtain ⟨k, v⟩ := kv
    by_cases hk : k = ty <;> simp [bumpType, sumTotals, hk, ih] <;> omega

/-- Bumping a type raises the map-wide sum of completed counts by one
exactly when the bumped issue is completed. -/
theorem sumCompleted_bumpType (m : List (String × TypeCounts)) (ty : String) (c : Bool) :
    sumCompleted (bumpType m ty c) = sumCompleted m + (if c then 1 else 0) := by
  induction m with
  | nil => simp [bumpType, sumCompleted]
  | cons kv rest ih =>
    obtain ⟨k, v⟩ := kv
    by_cases hk : k = ty <;> simp [bumpType, sumCompleted, hk, ih] <;> omega

/-- The grouping loop adds the number of scanned issues to the map-wide sum
of totals. -/
theorem sumTotals_foldl (issues : List Issue) (m : List (String × TypeCounts)) :
    sumTotals
        (issues.foldl (fun acc i => bumpType acc i.fields.issuetype (isCompletedIssue i)) m) =
      sumTotals m + issues.length := by
  induction issues generalizing m with
  | nil => simp
  | cons i rest ih =>
    rw [List.foldl_cons, ih, sumTotals_bumpType, List.length_cons]
    omega

/-- The grouping loop adds the number of scanned completed issues to the
map-wide sum of completed counts. -/
theorem sumCompleted_foldl (issues : List Issue) (m : List (String × TypeCounts)) :
    sumCompleted
        (issues.foldl (fun acc i => bumpType acc i.fields.issuetype (isCompletedIssue i)) m) =
      sumCompleted m + issues.countP isCompletedIssue := by
  induction issues generalizing m with
  | nil => simp
  | cons i rest ih =>
    rw [List.foldl_cons, ih, sumCompleted_bumpType, List.countP_cons]
    by_cases hc : isCompletedIssue i <;> simp [hc] <;> omega

/-- Bumping preserves the per-entry bound `completed ≤ total`. -/
theorem bumpType_entries_le (m : List (String × TypeCounts)) (ty : String) (c : Bool)
    (h : ∀ e ∈ m, e.2.completed ≤ e.2.total) :
    ∀ e ∈ bumpType m ty c, e.2.completed ≤ e.2.total := by
  induction m with
  | nil =>
    intro e he
    simp [bumpType] at he
    subst he
    by_cases hc : c <;> simp [hc]
  | cons kv rest ih =>
    obtain ⟨k, v⟩ := kv
    intro e he
    by_cases hk : k = ty
    · simp [bumpType, hk] at he
      rcases he with he | he
      · subst he
        have hv : v.completed ≤ v.total := h (k, v) (by simp)
        by_cases hc : c <;> simp [hc] <;> omega
      · exact h e (by simp [he])
    · simp [bumpType, hk] at he
      rcases he with he | he
      · subst he
        exact h (k, v) (by simp)
      · exact ih (fun e' he' => h e' (by simp [he'])) e he

/-- Every entry of the built grouping map satisfies `completed ≤ total`. -/
theorem buildIssueTypes_entries_le (issues : List Issue) :
    ∀ e ∈ buildIssueTypes issues, e.2.completed ≤ e.2.total := by
  have H : ∀ (l : List Issue) (m : List (String × TypeCounts)),
      (∀ e ∈ m, e.2.completed ≤ e.2.total) →
      ∀ e ∈ l.foldl (fun acc i => bumpType acc i.fields.issuetype (isCompletedIssue i)) m,
        e.2.completed ≤ e.2.total := by
    intro l
    induction l with
    | nil => intro m hm; simpa using hm
    | cons i rest ih =>
      intro m hm
      rw [List.foldl_cons]
      exact ih _ (bumpType_entries_le m _ _ hm)
  exact H issues [] (by simp)

/-- If the searches for the sprints before `s` all succeed and the search
for `s` raises, the sprint loop aborts with that exception's message. -/
theorem processSprints_error (b : Backend) (s : SprintObj) (rest : List SprintObj)
    (m : String) (hs : b.search_issues (sprintJql s.id) none = .error m) :
    ∀ pre : List SprintObj,
      (∀ s' ∈ pre, ∃ issues, b.search_issues (sprintJql s'.id) none = .ok issues) →
      processSprints b (pre ++ s :: rest) = .error m := by
  intro pre
  induction pre with
  | nil =>
    intro _
    simp [processSprints, hs]
  | cons p ps ih =>
    intro hpre
    obtain ⟨issues, hp⟩ := hpre p (by simp)
    have ih2 := ih (fun s2 h2 => hpre s2 (by simp [h2]))
    simp [processSprints, hp, ih2]

/-- The truthiness filter on an optional string yields `some v` exactly when
the argument was provided as the non-empty string `v`. -/
theorem optIfTruthyStr_eq_some (o : Option String) (v : String) :
    optIfTruthyStr o = some v ↔ o = some v ∧ v ≠ "" := by
  cases o with
  | none => simp [optIfTruthyStr]
  | some s =>
    by_cases h : s = ""
    · subst h
      simp only [optIfTruthyStr, if_pos rfl]
      exact ⟨fun hv => Option.noConfusion hv,
        fun hv => absurd (Option.some.inj hv.1).symm hv.2⟩
    · simp only [optIfTruthyStr, if_neg h, Option.some.injEq]
      exact ⟨fun hv => ⟨hv, fun hv2 => h (hv.trans hv2)⟩, fun hv => hv.1⟩

/-- The truthiness filter on an optional list yields `some v` exactly when
the argument was provided as the non-empty list `v`. -/
theorem optIfTruthyList_eq_some (o : Option (List String)) (v : List String) :
    optIfTruthyList o = some v ↔ o = some v ∧ v ≠ [] := by
  cases o with
  | none => simp [optIfTruthyList]
  | some l =>
    by_cases h : l = []
    · subst h
      simp only [optIfTruthyList, if_pos rfl]
      exact ⟨fun hv => Option.noConfusion hv,
        fun hv => absurd (Option.some.inj hv.1).symm hv.2⟩
    · simp only [optIfTruthyList, if_neg h, Option.some.injEq]
      exact ⟨fun hv => ⟨hv, fun hv2 => h (hv.trans hv2)⟩, fun hv => hv.1⟩

/-- The truthiness filter on an optional number yields `some v` exactly when
the argument was provided as the nonzero value `v`. -/
theorem optIfTruthyNum_eq_some (o : Option ℚ) (v : ℚ) :
    optIfTruthyNum o = some v ↔ o = some v ∧ v ≠ 0 := by
  cases o with
  | none => simp [optIfTruthyNum]
  | some q =>
    by_cases h : q = 0
    · subst h
      simp only [optIfTruthyNum, if_pos rfl]
      exact ⟨fun hv => Option.noConfusion hv,
        fun hv => absurd (Option.some.inj hv.1).symm hv.2⟩
    · simp only [optIfTruthyNum, if_neg h, Option.some.injEq]
      exact ⟨fun hv => ⟨hv, fun hv2 => h (hv.trans hv2)⟩, fun hv => hv.1⟩

/-- C1 (amended): every tool handler catches a raising backend call and
returns the `{error: m}` record carrying exactly the raising exception's
message `m`, never propagating the exception (handlers are total functions
into `ToolResult`); the error message is therefore non-empty exactly when
the exception's own message is, and an exception whose string form is empty
yields `{error: ""}`.  Each conjunct covers one backend call site of one
handler: the hypotheses state that the calls made before it succeed and that
it raises with message `m`, and the conclusion states that the handler
returns `ToolResult.error m`.  For the per-sprint issue search of
`get_sprint_details` the raising call may sit at any position of the sprint
loop: the searches for the sprints before it succeed and the loop aborts
with the raising search's message. -/
theorem C1_error_propagation :
    (∀ b bid st m, b.sprints bid st = .error m →
      get_sprint_details b bid st = .error m) ∧
    (∀ b bid st m pre s rest, b.sprints bid st = .ok (pre ++ s :: rest) →
      (∀ s' ∈ pre, ∃ issues, b.search_issues (sprintJql s'.id) none = .ok issues) →
      b.search_issues (sprintJql s.id) none = .error m →
      get_sprint_details b bid st = .error m) ∧
    (∀ b k m, b.issue k = .error m → get_issue_details b k = .error m) ∧
    (∀ b k i m, b.issue k = .ok i → b.issue_changelog k = .error m →
      get_issue_details b k = .error m) ∧
    (∀ b pk it su de a p l sp m,
      b.create_issue (create_issue_fields pk it su de a p l sp) = .error m →
      create_issue b pk it su de a p l sp = .error m) ∧
    (∀ b k tgt m, b.transitions k = .error m → update_issue_status b k tgt = .error m) ∧
    (∀ b k tgt ts tid m, b.transitions k = .ok ts →
      findTransitionId ts tgt = some tid → tid ≠ "" →
      b.transition_issue k tid = .error m →
      update_issue_status b k tgt = .error m) ∧
    (∀ b k a m, b.assign_issue k a = .error m → assign_issue b k a = .error m) ∧
    (∀ b k sid m, b.add_issues_to_sprint sid [k] = .error m →
      add_issue_to_sprint b k sid = .error m) ∧
    (∀ b pk n m, b.search_issues (backlogJql pk) (some n) = .error m →
      get_project_backlog b pk n = .error m) ∧
    (∀ b bid nm sd ed g m,
      b.create_sprint (create_sprint_payload bid nm sd ed g) = .error m →
      create_sprint b bid nm sd ed g = .error m) ∧
    (∀ b bid sid m, b.sprint sid = .error m →
      generate_sprint_report b bid sid = .error m) ∧
    (∀ b bid sid sp m, b.sprint sid = .ok sp →
      b.sprint_report bid sid = .error m →
      generate_sprint_report b bid sid = .error m) ∧
    (∀ b bid sid sp r m, b.sprint sid = .ok sp →
      b.sprint_report bid sid = .ok r →
      b.search_issues (reportJql sid) (some 200) = .error m →
      generate_sprint_report b bid sid = .error m) := by
  refine ⟨?_, ?_, ?_, ?_, ?_, ?_, ?_, ?_, ?_, ?_, ?_, ?_, ?_, ?_⟩
  · intro b bid st m h
    simp [get_sprint_details, h]
  · intro b bid st m pre s rest h1 hpre h2
    have hp := processSprints_error b s rest m h2 pre hpre
    simp [get_sprint_details, h1, hp]
  · intro b k m h
    simp [get_issue_details, h]
  · intro b k i m h1 h2
    simp [get_issue_details, h1, h2]
  · intro b pk it su de a p l sp m h
    simp [create_issue, h]
  · intro b k tgt m h
    simp [update_issue_status, h]
  · intro b k tgt ts tid m h1 h2 h3 h4
    simp [update_issue_status, h1, h2, h3, h4]
  · intro b k a m h
    simp [assign_issue, h]
  · intro b k sid m h
    simp [add_issue_to_sprint, h]
  · intro b pk n m h
    simp [get_project_backlog, h]
  · intro b bid nm sd ed g m h
    simp [create_sprint, h]
  · intro b bid sid m h
    simp [generate_sprint_report, h]
  · intro b bid sid sp m h1 h2
    simp [generate_sprint_report, h1, h2]
  · intro b bid sid sp r m h1 h2 h3
    simp [generate_sprint_report, h1, h2, h3]

/-- Witness for C1: each conjunct exercised at a concrete backend. -/
theorem C1_error_propagation_witness :
    get_sprint_details (failB "boom") 1 "active" = .error "boom" ∧
    get_sprint_details midB 1 "active" = .error "net down" ∧
    get_sprint_details twoSprintB 1 "active" = .error "second search fail" ∧
    get_issue_details (failB "boom") "PROJ-1" = .error "boom" ∧
    get_issue_details midB "PROJ-1" = .error "net down" ∧
    create_issue (failB "boom") "PROJ" "Task" "s" "d" none none none none = .error "boom" ∧
    update_issue_status (failB "boom") "PROJ-1" "Done" = .error "boom" ∧
    update_issue_status midB "PROJ-1" "Done" = .error "net down" ∧
    assign_issue (failB "boom") "PROJ-1" "alice" = .error "boom" ∧
    add_issue_to_sprint (failB "boom") "PROJ-1" 7 = .error "boom" ∧
    get_project_backlog (failB "boom") "PROJ" 50 = .error "boom" ∧
    create_sprint (failB "boom") 1 "S" "2024-01-01" "2024-01-14" "" = .error "boom" ∧
    generate_sprint_report (failB "boom") 1 7 = .error "boom" ∧
    generate_sprint_report midB 1 7 = .error "net down" ∧
    generate_sprint_report lateB 1 7 = .error "late fail" := by
  refine ⟨?_, ?_, ?_, ?_, ?_, ?_, ?_, ?_, ?_, ?_, ?_, ?_, ?_, ?_, ?_⟩
  · exact C1_error_propagation.1 (failB "boom") 1 "active" "boom" rfl
  · exact C1_error_propagation.2.1 midB 1 "active" "net down" [] okSprint [] rfl
      (fun s' hs' => absurd hs' (List.not_mem_nil s')) rfl
  · refine C1_error_propagation.2.1 twoSprintB 1 "active" "second search fail"
      [okSprint] okSprint2 [] rfl ?_ rfl
    intro s' hs'
    have h : s' = okSprint := by simpa using hs'
    subst h
    exact ⟨[wIssue], rfl⟩
  · exact C1_error_propagation.2.2.1 (failB "boom") "PROJ-1" "boom" rfl
  · exact C1_error_propagation.2.2.2.1 midB "PROJ-1" wIssue "net down" rfl rfl
  · exact C1_error_propagation.2.2.2.2.1 (failB "boom") "PROJ" "Task" "s" "d"
      none none none none "boom" rfl
  · exact C1_error_propagation.2.2.2.2.2.1 (failB "boom") "PROJ-1" "Done" "boom" rfl
  · exact C1_error_propagation.2.2.2.2.2.2.1 midB "PROJ-1" "Done" threeTransitions "31"
      "net down" rfl (by decide) (by decide) rfl
  · exact C1_error_propagation.2.2.2.2.2.2.2.1 (failB "boom") "PROJ-1" "alice" "boom" rfl
  · exact C1_error_propagation.2.2.2.2.2.2.2.2.1 (failB "boom") "PROJ-1" 7 "boom" rfl
  · exact C1_error_propagation.2.2.2.2.2.2.2.2.2.1 (failB "boom") "PROJ" 50 "boom" rfl
  · exact C1_error_propagation.2.2.2.2.2.2.2.2.2.2.1 (failB "boom") 1 "S" "2024-01-01"
      "2024-01-14" "" "boom" rfl
  · exact C1_error_propagation.2.2.2.2.2.2.2.2.2.2.2.1 (failB "boom") 1 7 "boom" rfl
  · exact C1_error_propagation.2.2.2.2.2.2.2.2.2.2.2.2.1 midB 1 7 okSprint "net down" rfl rfl
  · exact C1_error_propagation.2.2.2.2.2.2.2.2.2.2.2.2.2 lateB 1 7 okSprint "raw"
      "late fail" rfl rfl rfl

/-- C1 counterexample: a backend call raising an exception whose message is
the empty string is surfaced as `{error: ""}`, so the error message string
is not always non-empty as the claim states. -/
theorem C1_empty_error_counterexample :
    get_sprint_details (failB "") 1 "active" = ToolResult.error "" ∧
    ("" : String).length = 0 := ⟨rfl, rfl⟩

/-- C2 (amended): in both aggregations an issue counts as completed exactly
when its status name is in `closedStatuses`; each completion-percentage
field is `0` when its denominator is `0` and equals `completed/total*100`
when its denominator is positive.  For the issue-count percentage of
`generate_sprint_report` the denominator is a length, so this matches the
claim exactly; for the two story-point percentages the code's guard is
`total_story_points > 0`, so a negative rational total also yields `0`
rather than `completed/total*100` — the claim as stated fails only there. -/
theorem C2_percentages :
    (∀ l, (sprintMetrics l).total_story_points = (l.map summaryPoints).sum ∧
      (sprintMetrics l).completed_story_points =
        ((l.filter summaryCompleted).map summaryPoints).sum) ∧
    (∀ l, (sprintMetrics l).total_story_points ≤ 0 →
      (sprintMetrics l).completion_percentage = 0) ∧
    (∀ l, 0 < (sprintMetrics l).total_story_points →
      (sprintMetrics l).completion_percentage =
        (sprintMetrics l).completed_story_points /
          (sprintMetrics l).total_story_points * 100) ∧
    (∀ issues, (reportMetrics issues).completed_issues = issues.countP isCompletedIssue ∧
      (reportMetrics issues).total_issues = issues.length) ∧
    (∀ issues, (reportMetrics issues).total_issues = 0 →
      (reportMetrics issues).completion_percentage = 0) ∧
    (∀ issues, (reportMetrics issues).total_issues ≠ 0 →
      (reportMetrics issues).completion_percentage =
        ((reportMetrics issues).completed_issues : ℚ) /
          ((reportMetrics issues).total_issues : ℚ) * 100) ∧
    (∀ issues, (reportMetrics issues).total_story_points ≤ 0 →
      (reportMetrics issues).story_point_completion = 0) ∧
    (∀ issues, 0 < (reportMetrics issues).total_story_points →
      (reportMetrics issues).story_point_completion =
        (reportMetrics issues).completed_story_points /
          (reportMetrics issues).total_story_points * 100) := by
  refine ⟨fun l => ⟨rfl, rfl⟩, ?_, ?_, fun issues => ⟨rfl, rfl⟩, ?_, ?_, ?_, ?_⟩
  · intro l h
    have hn : ¬ ((l.map summaryPoints).sum > 0) := not_lt.mpr h
    simp only [sprintMetrics]
    rw [if_neg hn]
  · intro l h
    simp only [sprintMetrics] at h ⊢
    rw [if_pos h]
  · intro issues h
    simp only [reportMetrics] at h ⊢
    rw [h]
    simp
  · intro issues h
    have hp : issues.length > 0 := Nat.pos_of_ne_zero h
    simp only [reportMetrics] at h ⊢
    rw [if_pos hp]
  · intro issues h
    have hn : ¬ ((issues.map issuePoints).sum > 0) := not_lt.mpr h
    simp only [reportMetrics]
    rw [if_neg hn]
  · intro issues h
    simp only [reportMetrics] at h ⊢
    rw [if_pos h]

/-- Witness for C2: both sides of each guard exercised on concrete lists
(the spec scenario with a 5-point Done issue and a 3-point In Progress
issue, and the empty list). -/
theorem C2_percentages_witness :
    (sprintMetrics []).completion_percentage = 0 ∧
    (sprintMetrics [wsDone, wsProg]).completion_percentage =
      (sprintMetrics [wsDone, wsProg]).completed_story_points /
        (sprintMetrics [wsDone, wsProg]).total_story_points * 100 ∧
    (reportMetrics []).completion_percentage = 0 ∧
    (reportMetrics [wIssue]).completion_percentage =
      ((reportMetrics [wIssue]).completed_issues : ℚ) /
        ((reportMetrics [wIssue]).total_issues : ℚ) * 100 ∧
    (reportMetrics []).story_point_completion = 0 ∧
    (reportMetrics [wIssue]).story_point_completion =
      (reportMetrics [wIssue]).completed_story_points /
        (reportMetrics [wIssue]).total_story_points * 100 := by
  refine ⟨?_, ?_, ?_, ?_, ?_, ?_⟩
  · exact C2_percentages.2.1 [] (by norm_num [sprintMetrics])
  · exact C2_percentages.2.2.1 [wsDone, wsProg]
      (by norm_num [sprintMetrics, summaryPoints, pyOr0, wsDone, wsProg])
  · exact C2_percentages.2.2.2.2.1 [] (by decide)
  · exact C2_percentages.2.2.2.2.2.1 [wIssue] (by decide)
  · exact C2_percentages.2.2.2.2.2.2.1 [] (by norm_num [reportMetrics])
  · exact C2_percentages.2.2.2.2.2.2.2 [wIssue]
      (by norm_num [reportMetrics, issuePoints, pyOr0, wIssue])

/-- C2 counterexample: a single completed issue carrying -5 story points
gives denominator -5, which is nonzero, so the claim demands the percentage
`(-5)/(-5)*100 = 100`, but the code's `total_story_points > 0` guard
produces `0`. -/
theorem C2_negative_points_counterexample :
    (sprintMetrics [negSummary]).total_story_points = -5 ∧
    (sprintMetrics [negSummary]).completion_percentage = 0 ∧
    (sprintMetrics [negSummary]).completed_story_points /
      (sprintMetrics [negSummary]).total_story_points * 100 = 100 := by
  refine ⟨?_, ?_, ?_⟩
  · norm_num [sprintMetrics, summaryPoints, pyOr0, negSummary]
  · norm_num [sprintMetrics, summaryPoints, pyOr0, negSummary]
  · norm_num [sprintMetrics, summaryPoints, pyOr0, summaryCompleted, closedStatuses,
      negSummary]

/-- C3 (amended): `update_issue_status` selects the first available
transition whose name matches the target case-insensitively.  When no
transition matches it returns the `success: false` record with the message
built by `cannotTransitionMsg` (not an `{error}` record); when one matches
with a non-empty backend id and the execution call succeeds, it executes
that transition by its id and returns the `success: true` record.  Because
the Python guard is `if not transition_id:`, a matching transition whose
backend id is the empty string (a falsy value) is treated like no match and
also yields the `success: false` record — the claim as stated fails only
there. -/
theorem C3_transition :
    (∀ ts tgt, findTransitionId ts tgt = none ↔
      ∀ t ∈ ts, pyLower t.name ≠ pyLower tgt) ∧
    (∀ b k tgt ts, b.transitions k = .ok ts → findTransitionId ts tgt = none →
      update_issue_status b k tgt = .ok (.failure (cannotTransitionMsg tgt ts))) ∧
    (∀ b k tgt ts tid, b.transitions k = .ok ts →
      findTransitionId ts tgt = some tid → tid ≠ "" →
      b.transition_issue k tid = .ok () →
      update_issue_status b k tgt =
        .ok (.success k tgt ("Successfully updated " ++ k ++ " status to " ++ tgt))) ∧
    (∀ b k tgt ts, b.transitions k = .ok ts →
      findTransitionId ts tgt = some "" →
      update_issue_status b k tgt = .ok (.failure (cannotTransitionMsg tgt ts))) := by
  refine ⟨?_, ?_, ?_, ?_⟩
  · intro ts tgt
    induction ts with
    | nil => simp [findTransitionId]
    | cons t rest ih =>
      by_cases h : pyLower t.name = pyLower tgt
      · simp [findTransitionId, h]
      · simp [findTransitionId, h, ih]
  · intro b k tgt ts h1 h2
    simp [update_issue_status, h1, h2]
  · intro b k tgt ts tid h1 h2 h3 h4
    simp [update_issue_status, h1, h2, h3, h4]
  · intro b k tgt ts h1 h2
    simp [update_issue_status, h1, h2]

/-- Witness for C3 at the spec scenario's transitions To Do / In Progress /
Done: target Blocked matches nothing and yields the negative record; target
done matches Done case-insensitively and yields the success record. -/
theorem C3_transition_witness :
    update_issue_status okB "PROJ-1" "Blocked" =
      .ok (.failure (cannotTransitionMsg "Blocked" threeTransitions)) ∧
    update_issue_status okB "PROJ-1" "done" =
      .ok (.success "PROJ-1" "done"
        ("Successfully updated " ++ "PROJ-1" ++ " status to " ++ "done")) ∧
    update_issue_status emptyIdB "PROJ-1" "Done" =
      .ok (.failure (cannotTransitionMsg "Done" [{ id := "", name := "Done" }])) := by
  refine ⟨?_, ?_, ?_⟩
  · exact C3_transition.2.1 okB "PROJ-1" "Blocked" threeTransitions rfl (by decide)
  · exact C3_transition.2.2.1 okB "PROJ-1" "done" threeTransitions "31" rfl (by decide)
      (by decide) rfl
  · exact C3_transition.2.2.2 emptyIdB "PROJ-1" "Done" [{ id := "", name := "Done" }] rfl
      (by decide)

/-- C3 counterexample: with a single available transition named Done whose
backend id is the empty string, the target Done matches it
(`findTransitionId` returns `some ""`), the execution call would succeed,
and yet the handler returns the `success: false` record instead of
executing the transition as the claim states. -/
theorem C3_falsy_id_counterexample :
    findTransitionId [{ id := "", name := "Done" }] "Done" = some "" ∧
    update_issue_status emptyIdB "PROJ-1" "Done" =
      .ok (.failure (cannotTransitionMsg "Done" [{ id := "", name := "Done" }])) ∧
    emptyIdB.transition_issue "PROJ-1" "" = .ok () := ⟨rfl, rfl, rfl⟩

/-- C4 (amended): the field map sent by `create_issue` always carries the
four required fields with the caller's values; each optional argument is
carried if and only if the caller provided it with a Python-truthy value —
an omitted argument sends nothing, and a provided empty string, empty label
list, or zero story-points value is also dropped (the guards are `if
assignee:`, `if priority:`, `if labels:`, `if story_points:`) — the claim's
"if and only if the caller provided it" fails only on provided falsy
values.  The conjuncts state, for each optional field: omission sends
nothing, a provided truthy value is carried, a provided falsy value (empty
string, empty list, zero) is dropped, and the full characterization that the
field carries `v` exactly when the caller provided the truthy value `v`. -/
theorem C4_payload_fields :
    (∀ pk it su de a p l sp,
      (create_issue_fields pk it su de a p l sp).project = pk ∧
      (create_issue_fields pk it su de a p l sp).issuetype = it ∧
      (create_issue_fields pk it su de a p l sp).summary = su ∧
      (create_issue_fields pk it su de a p l sp).description = de) ∧
    (∀ pk it su de p l sp, (create_issue_fields pk it su de none p l sp).assignee = none) ∧
    (∀ pk it su de s p l sp, s ≠ "" →
      (create_issue_fields pk it su de (some s) p l sp).assignee = some s) ∧
    (∀ pk it su de a l sp, (create_issue_fields pk it su de a none l sp).priority = none) ∧
    (∀ pk it su de a s l sp, s ≠ "" →
      (create_issue_fields pk it su de a (some s) l sp).priority = some s) ∧
    (∀ pk it su de a p sp, (create_issue_fields pk it su de a p none sp).labels = none) ∧
    (∀ pk it su de a p ls sp, ls ≠ [] →
      (create_issue_fields pk it su de a p (some ls) sp).labels = some ls) ∧
    (∀ pk it su de a p l,
      (create_issue_fields pk it su de a p l none).customfield_10002 = none) ∧
    (∀ pk it su de a p l q, q ≠ 0 →
      (create_issue_fields pk it su de a p l (some q)).customfield_10002 = some q) ∧
    (∀ b pk it su de a p l sp ni,
      b.create_issue (create_issue_fields pk it su de a p l sp) = .ok ni →
      create_issue b pk it su de a p l sp =
        .ok { key := ni.key, self := ni.self, summary := su,
              message := "Successfully created issue " ++ ni.key }) ∧
    (∀ pk it su de p l sp,
      (create_issue_fields pk it su de (some "") p l sp).assignee = none) ∧
    (∀ pk it su de a l sp,
      (create_issue_fields pk it su de a (some "") l sp).priority = none) ∧
    (∀ pk it su de a p sp,
      (create_issue_fields pk it su de a p (some []) sp).labels = none) ∧
    (∀ pk it su de a p l,
      (create_issue_fields pk it su de a p l (some 0)).customfield_10002 = none) ∧
    (∀ pk it su de a p l sp v,
      (create_issue_fields pk it su de a p l sp).assignee = some v ↔
        a = some v ∧ v ≠ "") ∧
    (∀ pk it su de a p l sp v,
      (create_issue_fields pk it su de a p l sp).priority = some v ↔
        p = some v ∧ v ≠ "") ∧
    (∀ pk it su de a p l sp v,
      (create_issue_fields pk it su de a p l sp).labels = some v ↔
        l = some v ∧ v ≠ []) ∧
    (∀ pk it su de a p l sp v,
      (create_issue_fields pk it su de a p l sp).customfield_10002 = some v ↔
        sp = some v ∧ v ≠ 0) := by
  refine ⟨fun pk it su de a p l sp => ⟨rfl, rfl, rfl, rfl⟩, fun pk it su de p l sp => rfl,
    ?_, fun pk it su de a l sp => rfl, ?_, fun pk it su de a p sp => rfl, ?_,
    fun pk it su de a p l => rfl, ?_, ?_, fun pk it su de p l sp => rfl,
    fun pk it su de a l sp => rfl, fun pk it su de a p sp => rfl, ?_,
    fun pk it su de a p l sp v => optIfTruthyStr_eq_some a v,
    fun pk it su de a p l sp v => optIfTruthyStr_eq_some p v,
    fun pk it su de a p l sp v => optIfTruthyList_eq_some l v,
    fun pk it su de a p l sp v => optIfTruthyNum_eq_some sp v⟩
  · intro pk it su de s p l sp h
    simp [create_issue_fields, optIfTruthyStr, h]
  · intro pk it su de a s l sp h
    simp [create_issue_fields, optIfTruthyStr, h]
  · intro pk it su de a p ls sp h
    simp [create_issue_fields, optIfTruthyList, h]
  · intro pk it su de a p l q h
    simp [create_issue_fields, optIfTruthyNum, h]
  · intro b pk it su de a p l sp ni h
    simp [create_issue, h]
  · intro pk it su de a p l
    simp [create_issue_fields, optIfTruthyNum]

/-- Witness for C4: provided truthy values are carried, omitted arguments
send nothing, provided falsy values (empty string, empty list, zero story
points) are dropped, and a succeeding creation call yields the success
record. -/
theorem C4_payload_fields_witness :
    (create_issue_fields "PROJ" "Story" "Sum" "Desc" (some "alice") (some "High")
      (some ["backend"]) (some 3)).assignee = some "alice" ∧
    (create_issue_fields "PROJ" "Story" "Sum" "Desc" (some "alice") (some "High")
      (some ["backend"]) (some 3)).priority = some "High" ∧
    (create_issue_fields "PROJ" "Story" "Sum" "Desc" (some "alice") (some "High")
      (some ["backend"]) (some 3)).labels = some ["backend"] ∧
    (create_issue_fields "PROJ" "Story" "Sum" "Desc" (some "alice") (some "High")
      (some ["backend"]) (some 3)).customfield_10002 = some 3 ∧
    (create_issue_fields "PROJ" "Story" "Sum" "Desc" none none none none).assignee = none ∧
    (create_issue_fields "PROJ" "Story" "Sum" "Desc" (some "") (some "") (some [])
      (some 0)).assignee = none ∧
    (create_issue_fields "PROJ" "Story" "Sum" "Desc" (some "") (some "") (some [])
      (some 0)).priority = none ∧
    (create_issue_fields "PROJ" "Story" "Sum" "Desc" (some "") (some "") (some [])
      (some 0)).labels = none ∧
    (create_issue_fields "PROJ" "Story" "Sum" "Desc" (some "") (some "") (some [])
      (some 0)).customfield_10002 = none ∧
    create_issue okB "PROJ" "Story" "Sum" "Desc" none none none none =
      .ok { key := "PROJ-9", self := "https://example/PROJ-9", summary := "Sum",
            message := "Successfully created issue " ++ "PROJ-9" } := by
  refine ⟨?_, ?_, ?_, ?_, ?_, ?_, ?_, ?_, ?_, ?_⟩
  · exact C4_payload_fields.2.2.1 "PROJ" "Story" "Sum" "Desc" "alice" (some "High")
      (some ["backend"]) (some 3) (by decide)
  · exact C4_payload_fields.2.2.2.2.1 "PROJ" "Story" "Sum" "Desc" (some "alice") "High"
      (some ["backend"]) (some 3) (by decide)
  · exact C4_payload_fields.2.2.2.2.2.2.1 "PROJ" "Story" "Sum" "Desc" (some "alice")
      (some "High") ["backend"] (some 3) (by decide)
  · exact C4_payload_fields.2.2.2.2.2.2.2.2.1 "PROJ" "Story" "Sum" "Desc" (some "alice")
      (some "High") (some ["backend"]) 3 (by norm_num)
  · exact C4_payload_fields.2.1 "PROJ" "Story" "Sum" "Desc" none none none
  · exact C4_payload_fields.2.2.2.2.2.2.2.2.2.2.1 "PROJ" "Story" "Sum" "Desc" (some "")
      (some []) (some 0)
  · exact C4_payload_fields.2.2.2.2.2.2.2.2.2.2.2.1 "PROJ" "Story" "Sum" "Desc" (some "")
      (some []) (some 0)
  · exact C4_payload_fields.2.2.2.2.2.2.2.2.2.2.2.2.1 "PROJ" "Story" "Sum" "Desc"
      (some "") (some "") (some 0)
  · exact C4_payload_fields.2.2.2.2.2.2.2.2.2.2.2.2.2.1 "PROJ" "Story" "Sum" "Desc"
      (some "") (some "") (some [])
  · exact C4_payload_fields.2.2.2.2.2.2.2.2.2.1 okB "PROJ" "Story" "Sum" "Desc" none none
      none none { key := "PROJ-9", self := "https://example/PROJ-9" } rfl

/-- C4 counterexample: story points provided as 0 are a falsy value, so the
guard `if story_points:` drops the field from the payload even though the
caller provided it, contradicting the claim's "included ... if and only if
the caller provided it". -/
theorem C4_zero_points_counterexample :
    (create_issue_fields "PROJ" "Story" "Sum" "Desc" none none none
      (some 0)).customfield_10002 = none ∧
    (some (0 : ℚ)).isSome = true := ⟨rfl, rfl⟩

/-- C5 (confirmed): the payload `create_sprint` sends to the backend carries
the caller's start date suffixed with `T00:00:00.000Z` and the caller's end
date suffixed with `T23:59:59.000Z`, for every input; in particular the spec
scenario's dates 2024-01-01 and 2024-01-14 become
`2024-01-01T00:00:00.000Z` and `2024-01-14T23:59:59.000Z`. -/
theorem C5_sprint_dates :
    (∀ (board_id : Int) (name start_date end_date goal : String),
      (create_sprint_payload board_id name start_date end_date goal).startDate =
        start_date ++ "T00:00:00.000Z" ∧
      (create_sprint_payload board_id name start_date end_date goal).endDate =
        end_date ++ "T23:59:59.000Z") ∧
    (create_sprint_payload 42 "Sprint 1" "2024-01-01" "2024-01-14" "").startDate =
      "2024-01-01T00:00:00.000Z" ∧
    (create_sprint_payload 42 "Sprint 1" "2024-01-01" "2024-01-14" "").endDate =
      "2024-01-14T23:59:59.000Z" :=
  ⟨fun _ _ _ _ _ => ⟨rfl, rfl⟩, by decide, by decide⟩

/-- C6 (confirmed): in the issue summaries of `get_sprint_details`, the
backlog items of `get_project_backlog` and the detail record of
`get_issue_details`, an issue with no assignee maps to the string
`"Unassigned"`; the field is of string type in every produced record, so it
is never null and never omitted. -/
theorem C6_unassigned_default :
    ∀ i : Issue, i.fields.assignee = none →
      (sprintIssueSummary i).assignee = "Unassigned" ∧
      (backlogItem i).assignee = "Unassigned" ∧
      ∀ cl : Changelog, (buildIssueDetails i cl).assignee = "Unassigned" := by
  intro i h
  refine ⟨?_, ?_, fun cl => ?_⟩ <;>
    simp [sprintIssueSummary, backlogItem, buildIssueDetails, h]

/-- Witness for C6 at a concrete unassigned issue. -/
theorem C6_unassigned_default_witness :
    (sprintIssueSummary wIssue).assignee = "Unassigned" ∧
    (backlogItem wIssue).assignee = "Unassigned" ∧
    (buildIssueDetails wIssue { histories := [] }).assignee = "Unassigned" :=
  ⟨(C6_unassigned_default wIssue rfl).1, (C6_unassigned_default wIssue rfl).2.1,
    (C6_unassigned_default wIssue rfl).2.2 { histories := [] }⟩

/-- C7 (confirmed): `get_project_backlog` queries issues of the project with
no sprint assignment ordered by rank ascending, passing the caller's cap
(default 50) as `maxResults`; on success it returns the record with the
project key, `backlog_count` equal to the length of `backlog_items`, and
each item shaped by `backlogItem` (key, summary, issue type, priority,
status, assignee, story points). -/
theorem C7_backlog :
    (∀ pk, backlogJql pk = "project = " ++ pk ++ " AND sprint is EMPTY ORDER BY Rank ASC") ∧
    (∀ b pk, get_project_backlog_default b pk = get_project_backlog b pk 50) ∧
    (∀ b pk n issues, b.search_issues (backlogJql pk) (some n) = .ok issues →
      get_project_backlog b pk n =
        .ok { project := pk
              backlog_count := issues.length
              backlog_items := issues.map backlogItem }) ∧
    (∀ i, backlogItem i =
      { key := i.key, summary := i.fields.summary, issue_type := i.fields.issuetype,
        priority := i.fields.priority, status := i.fields.status,
        assignee := i.fields.assignee.getD "Unassigned",
        story_points := (i.fields.customfield_10002).getD (PyNum.num 0) }) := by
  refine ⟨fun pk => rfl, fun b pk => rfl, ?_, fun i => rfl⟩
  intro b pk n issues h
  simp [get_project_backlog, h]

/-- Witness for C7 at a concrete backend returning one backlog issue. -/
theorem C7_backlog_witness :
    get_project_backlog okB "PROJ" 50 =
      .ok { project := "PROJ", backlog_count := 1,
            backlog_items := [backlogItem wIssue] } :=
  C7_backlog.2.2.1 okB "PROJ" 50 [wIssue] rfl

/-- C8 (confirmed): the per-issue-type breakdown of `generate_sprint_report`
is the single left-to-right scan `buildIssueTypes`; after the scan, each
type's recorded total equals the number of issues of that type and each
type's recorded completed count equals the number of issues of that type
whose status is in the closed set, so the scan increments a type's total for
each of its issues and its completed count exactly for the completed ones. -/
theorem C8_type_breakdown :
    ∀ (issues : List Issue) (ty : String),
      (reportMetrics issues).issue_types = buildIssueTypes issues ∧
      typesTotal (buildIssueTypes issues) ty =
        issues.countP (fun i => decide (i.fields.issuetype = ty)) ∧
      typesCompleted (buildIssueTypes issues) ty =
        issues.countP (fun i => decide (i.fields.issuetype = ty) && isCompletedIssue i) := by
  intro issues ty
  refine ⟨rfl, ?_, ?_⟩
  · have h := typesTotal_foldl issues [] ty
    simpa [buildIssueTypes, typesTotal] using h
  · have h := typesCompleted_foldl issues [] ty
    simpa [buildIssueTypes, typesCompleted] using h

/-- C9 (confirmed): the report fetched from `jira.sprint_report` is bound
but never used in the returned record — for two backends that agree on the
sprint fetch and the issue search, and whose sprint-report fetches both
succeed (with arbitrary, possibly different payloads), the handler output is
identical. -/
theorem C9_report_independent :
    ∀ (b1 b2 : Backend) (board_id sprint_id : Int),
      b1.sprint sprint_id = b2.sprint sprint_id →
      b1.search_issues (reportJql sprint_id) (some 200) =
        b2.search_issues (reportJql sprint_id) (some 200) →
      (∃ r1, b1.sprint_report board_id sprint_id = .ok r1) →
      (∃ r2, b2.sprint_report board_id sprint_id = .ok r2) →
      generate_sprint_report b1 board_id sprint_id =
        generate_sprint_report b2 board_id sprint_id := by
  intro b1 b2 bid sid hs hi hr1 hr2
  obtain ⟨r1, h1⟩ := hr1
  obtain ⟨r2, h2⟩ := hr2
  unfold generate_sprint_report
  rw [hs]
  simp only [h1, h2, hi]

/-- Witness for C9: two fully succeeding backends differing only in the
sprint-report payload produce the same record. -/
theorem C9_report_independent_witness :
    generate_sprint_report (repB "alpha") 3 7 = generate_sprint_report (repB "beta") 3 7 :=
  C9_report_independent (repB "alpha") (repB "beta") 3 7 rfl rfl ⟨"alpha", rfl⟩
    ⟨"beta", rfl⟩

/-- C10 (confirmed): the metrics record of `generate_sprint_report` is
internally consistent — `completed_issues ≤ total_issues`, every type entry
has `completed ≤ total`, the type totals sum to `total_issues`, and the type
completed counts sum to `completed_issues`. -/
theorem C10_metrics_consistency :
    ∀ issues : List Issue,
      (reportMetrics issues).completed_issues ≤ (reportMetrics issues).total_issues ∧
      (∀ e ∈ (reportMetrics issues).issue_types, e.2.completed ≤ e.2.total) ∧
      sumTotals (reportMetrics issues).issue_types = (reportMetrics issues).total_issues ∧
      sumCompleted (reportMetrics issues).issue_types =
        (reportMetrics issues).completed_issues := by
  intro issues
  refine ⟨?_, ?_, ?_, ?_⟩
  · simpa [reportMetrics] using List.countP_le_length (p := isCompletedIssue) (l := issues)
  · simpa [reportMetrics] using buildIssueTypes_entries_le issues
  · have h := sumTotals_foldl issues []
    simpa [reportMetrics, buildIssueTypes, sumTotals] using h
  · have h := sumCompleted_foldl issues []
    simpa [reportMetrics, buildIssueTypes, sumCompleted] using h

/-- Witness for C10 on a concrete one-issue list, with the membership bound
applied to the single grouping entry the scan produces. -/
theorem C10_metrics_consistency_witness :
    (reportMetrics [wIssue]).completed_issues ≤ (reportMetrics [wIssue]).total_issues ∧
    (TypeCounts.mk 1 1).completed ≤ (TypeCounts.mk 1 1).total ∧
    sumTotals (reportMetrics [wIssue]).issue_types = (reportMetrics [wIssue]).total_issues ∧
    sumCompleted (reportMetrics [wIssue]).issue_types =
      (reportMetrics [wIssue]).completed_issues :=
  ⟨(C10_metrics_consistency [wIssue]).1,
    (C10_metrics_consistency [wIssue]).2.1 ("Task", TypeCounts.mk 1 1) (by decide),
    (C10_metrics_consistency [wIssue]).2.2.1, (C10_metrics_consistency [wIssue]).2.2.2⟩

end Scrum
